import Mathlib

/-!
# Verification of the overtime app's auth/session/invite core

Shallow embedding of the Go sources of `cmdctl/overtime`:
`models` (User, Role, Invite, OvertimeEntry), `middleware/auth.go`
(token service and gate chain), `config`, and the auth handlers
(`Register`, `DeleteUser`).

Conventions of the embedding:
* Instants are `Int` values in Unix nanoseconds (Go `time.Time`); durations
  are `Int` nanoseconds (Go `time.Duration`).  Each call to `time.Now()` in
  the source becomes an explicit instant parameter.
* `jwt.NewNumericDate` truncates an instant down to a whole second
  (`time.Time.Truncate(time.Second)`, a round-down since the epoch);
  this is `numericDate` below.
* The HMAC signature of a JWT is modelled symbolically: a signature is the
  pair (signed payload, signing secret), and verification checks that the
  signature recomputed from the carried claims and the verifier's secret
  equals the attached one.  This encodes the standard unforgeability
  assumption; the base64/JSON wire format of the external jwt library is
  not modelled, so middleware that consumes wire-format tokens is
  parameterized by the string-level validation function.
* The GORM repository becomes explicit state passing over lists of records;
  fallible external operations (bcrypt, repository writes, signing) are
  Booleans/Options passed in as explicit outcomes.  Struct fields never
  touched by the modelled operations (timestamps, soft-delete markers,
  association objects) are elided.
* HTTP responses are reduced to their observable kind: a redirect with its
  location, an error with message and status code, or dispatch to the
  wrapped handler.  Set-Cookie headers accompanying responses are not part
  of any claim and are not modelled.
-/

/-! ## Data model (`models/user.go`, `models/invite.go`, `models/overtime.go`) -/

/-- Role: the closed enumeration ADMIN / HR / EMPLOYEE from `models/user.go`. -/
inductive Role where
  | admin
  | hr
  | employee
deriving DecidableEq, Repr

/-- User record (`models/user.go`).  Timestamps, soft-delete marker and the
association slice are elided; `MustChangePassword` carries a GORM column
default of `true`, recorded separately in `gormDefaultMustChangePassword`. -/
structure User where
  id : Nat
  username : String
  fullName : String
  passwordHash : String
  role : Role
  mustChangePassword : Bool
deriving DecidableEq, Repr

/-- The GORM `default:true` tag on `User.MustChangePassword`. -/
def gormDefaultMustChangePassword : Bool := true

/-- `User.IsAdmin` from `models/user.go`. -/
def User.IsAdmin (u : User) : Bool := u.role = Role.admin

/-- `User.IsHR` from `models/user.go`. -/
def User.IsHR (u : User) : Bool := u.role = Role.hr

/-- `User.CanManageOvertimeFor` from `models/user.go`:
admin may manage anyone, otherwise only one's own records. -/
def User.CanManageOvertimeFor (u : User) (userID : Nat) : Bool :=
  if u.IsAdmin then true
  else u.id = userID

/-- `User.CanViewAllOvertime` from `models/user.go`. -/
def User.CanViewAllOvertime (u : User) : Bool := u.IsAdmin || u.IsHR

/-- Invite record (`models/invite.go`).  Timestamps, soft-delete marker and
association objects are elided; `expiresAt` is an instant in nanoseconds. -/
structure Invite where
  id : Nat
  code : String
  fullName : String
  role : Role
  used : Bool
  createdBy : Nat
  expiresAt : Int
  teamId : Option Nat
  projectId : Option Nat
deriving DecidableEq, Repr

/-- `Invite.IsValid` from `models/invite.go`:
`!i.Used && time.Now().Before(i.ExpiresAt)` with `now` the explicit clock
reading; `Before` is the strict order on instants. -/
def Invite.IsValid (i : Invite) (now : Int) : Bool :=
  !i.used && decide (now < i.expiresAt)

/-- Overtime entry (`models/overtime.go`); only the fields the modelled
handlers inspect (the owning user id) are kept, the float-valued `Hours`
and the date are never read by them. -/
structure OvertimeEntry where
  id : Nat
  userId : Nat
  description : String
deriving DecidableEq, Repr

/-! ## Token service (`middleware/auth.go`, `config/config.go`) -/

/-- The configured session duration: `JWTExpiration: 24 * time.Hour` in
`config.Load` (hard-coded, not read from the environment), in nanoseconds. -/
def jwtExpiration : Int := 24 * 60 * 60 * 1000000000

/-- The configured invite window: `InviteExpiration: 7 * 24 * time.Hour`. -/
def inviteExpiration : Int := 7 * 24 * 60 * 60 * 1000000000

/-- `jwt.NewNumericDate`: the instant truncated down to a whole second
(`time.Time.Truncate(time.Second)` rounds down since the epoch). -/
def numericDate (t : Int) : Int := t - t % 1000000000

/-- The claim set of a session token (`Claims` in `middleware/auth.go`):
user id, username, role and the registered `exp` / `iat` timestamps. -/
structure JWTClaims where
  userId : Nat
  username : String
  role : Role
  expiresAt : Int
  issuedAt : Int
deriving DecidableEq, Repr

/-- A signed token.  The signature is symbolic: the payload that was signed
together with the secret that signed it.  A verifier accepts exactly when
re-signing the carried claims with its own secret reproduces `sig`. -/
structure SignedToken where
  claims : JWTClaims
  sig : JWTClaims × String
deriving DecidableEq, Repr

/-- `GenerateToken` from `middleware/auth.go`.  The source reads the clock
twice — once for `ExpiresAt` (`time.Now().Add(expiration)`) and once for
`IssuedAt` (`time.Now()`) — so the two readings `t1` and `t2` are separate
parameters (a run of the handler has `t1 ≤ t2`). -/
def GenerateToken (secret : String) (user : User) (expiration : Int)
    (t1 t2 : Int) : SignedToken :=
  let claims : JWTClaims :=
    { userId := user.id
      username := user.username
      role := user.role
      expiresAt := numericDate (t1 + expiration)
      issuedAt := numericDate t2 }
  { claims := claims, sig := (claims, secret) }

/-- `ValidateToken` from `middleware/auth.go` via `jwt.ParseWithClaims`:
check the signature against the process-wide secret, then the registered
`exp` claim with the strict comparison `now.Before(exp)` (jwt/v5 grants no
leeway).  Any failure is a hard reject (`none`). -/
def ValidateToken (secret : String) (now : Int) (tok : SignedToken) :
    Option JWTClaims :=
  if tok.sig = (tok.claims, secret) then
    if now < tok.claims.expiresAt then some tok.claims else none
  else none

/-! ## Gate chain (`middleware/auth.go`: AuthMiddleware, RequirePasswordChange,
RequireRole) -/

/-- The parts of an inbound request the middleware inspects: the value of
the cookie named `token` when present (`r.Cookie("token")` errs exactly
when the cookie is absent), the `Authorization` header (Go's
`Header.Get` yields `""` when absent), and the URL path. -/
structure Request where
  cookieToken : Option String
  authHeader : String
  path : String
deriving DecidableEq, Repr

/-- The observable outcome of running a request through middleware: a
redirect (`http.Redirect`), an error response (`http.Error` with message
and status), or dispatch into the wrapped handler's output. -/
inductive Response where
  | redirect (location : String)
  | httpError (message : String) (status : Nat)
  | page (name : String)
deriving DecidableEq, Repr

/-- Split a character list at every space, keeping empty segments
(the semantics of Go's `strings.Split(s, " ")`; the empty input yields
one empty segment). -/
def splitSpaceChars (cs : List Char) : List (List Char) :=
  match cs with
  | [] => [[]]
  | c :: rest =>
    match splitSpaceChars rest with
    | [] => [[c]]
    | g :: gs => if c = ' ' then [] :: g :: gs else (c :: g) :: gs

/-- Go's `strings.Split(s, " ")` on strings (splitting at the single-space
separator), via `splitSpaceChars`.  (`String.splitOn` has the same
behaviour but is not reducible by the kernel.) -/
def goSplitSpace (s : String) : List String :=
  (splitSpaceChars s.toList).map (fun g => String.mk g)

/-- The token-extraction prefix of `AuthMiddleware`: take the cookie's value
when a `token` cookie exists; if the resulting string is empty, fall back to
the `Authorization` header, accepting it only when splitting on a space
yields exactly `["Bearer", t]`.  Yields `""` when no token was found. -/
def extractToken (r : Request) : String :=
  let tokenString := match r.cookieToken with
    | some v => v
    | none => ""
  if tokenString = "" then
    if r.authHeader ≠ "" then
      let parts := goSplitSpace r.authHeader
      if parts.length = 2 ∧ parts.getD 0 "" = "Bearer" then parts.getD 1 ""
      else ""
    else ""
  else tokenString

/-- Find a user by primary key (`db.First(&user, id)`). -/
def findUserById (users : List User) (id : Nat) : Option User :=
  users.find? (fun u => u.id == id)

/-- `AuthMiddleware` from `middleware/auth.go`.  `validate` is the
string-level token validation (`ValidateToken` after wire decoding, closed
over the process secret and the clock); `users` is the repository state.
No token → redirect to login; failed validation → clear the cookie and
redirect to login; subject id not in the repository → redirect to login;
otherwise the resolved user is attached to the context and the wrapped
handler runs. -/
def AuthMiddleware (validate : String → Option JWTClaims) (users : List User)
    (next : User → Request → Response) (r : Request) : Response :=
  let tokenString := extractToken r
  if tokenString = "" then Response.redirect "/login"
  else
    match validate tokenString with
    | none => Response.redirect "/login"
    | some claims =>
      match findUserById users claims.userId with
      | none => Response.redirect "/login"
      | some user => next user r

/-- `RequirePasswordChange` from `middleware/auth.go`: a context-resolved
user with `MustChangePassword` set is let through only to
`/change-password` and is otherwise redirected there. -/
def RequirePasswordChange (next : Request → Response) (user : Option User)
    (r : Request) : Response :=
  match user with
  | some u =>
    if u.mustChangePassword then
      if r.path = "/change-password" then next r
      else Response.redirect "/change-password"
    else next r
  | none => next r

/-- `RequireRole` from `middleware/auth.go`: no context user → 401; a user
whose role appears in the route's allow-list is dispatched; any other user
receives a hard 403. -/
def RequireRole (roles : List Role) (next : User → Request → Response)
    (user : Option User) (r : Request) : Response :=
  match user with
  | none => Response.httpError "Unauthorized" 401
  | some u =>
    if roles.contains u.role then next u r
    else Response.httpError "Forbidden" 403

/-- A role-gated route as composed in `main.go`: `AuthMiddleware` resolves
the identity into the request context, the interposed
`RequirePasswordChange` checks the forced-password-change flag, and only
then does `RequireRole` read the context user back — every `RequireRole`
group in `main.go` is nested inside the `RequirePasswordChange` group. -/
def roleGatedRoute (validate : String → Option JWTClaims)
    (users : List User) (roles : List Role)
    (handler : User → Request → Response) (r : Request) : Response :=
  AuthMiddleware validate users
    (fun u req =>
      RequirePasswordChange
        (fun req2 => RequireRole roles handler (some u) req2) (some u) req) r

/-! ## Repository state and the auth handlers (`handlers/auth.go`) -/

/-- The repository state the modelled handlers read and write: user rows,
invite rows and overtime-entry rows. -/
structure DB where
  users : List User
  invites : List Invite
  entries : List OvertimeEntry
deriving DecidableEq, Repr

/-- Fetch an invite by code (`db.Where("code = ?", code).First(&invite)`). -/
def findInviteByCode (invites : List Invite) (code : String) : Option Invite :=
  invites.find? (fun i => i.code == code)

/-- Fetch a user by username (`db.Where("username = ?", u).First(&user)`). -/
def findUserByUsername (users : List User) (username : String) : Option User :=
  users.find? (fun u => u.username == username)

/-- The primary key GORM assigns to a freshly created row: one past the
largest id in the table. -/
def nextUserId (users : List User) : Nat :=
  (users.map User.id).foldr max 0 + 1

/-- GORM `Create(&user)`: assign the next primary key and insert the row.
A column carrying a `default` tag is stored with its default when the Go
struct field holds the zero value — so `MustChangePassword = false` is
persisted as the column default `true` — while the in-memory struct keeps
the zero value.  Yields the new table and the assigned id. -/
def gormCreateUser (users : List User) (u : User) : List User × Nat :=
  let id := nextUserId users
  let row : User :=
    { u with
      id := id
      mustChangePassword :=
        if u.mustChangePassword = false then gormDefaultMustChangePassword
        else u.mustChangePassword }
  (users ++ [row], id)

/-- `db.Model(&user).Update("must_change_password", v)`: set the column on
the row with the given primary key. -/
def updateUserMustChangePassword (users : List User) (id : Nat) (v : Bool) :
    List User :=
  users.map (fun u => if u.id = id then { u with mustChangePassword := v } else u)

/-- `db.Save(&invite)`: persist the (mutated) invite over the row with the
same primary key. -/
def saveInvite (invites : List Invite) (inv : Invite) : List Invite :=
  invites.map (fun j => if j.id = inv.id then inv else j)

/-- `db.Where("user_id = ?", id).Delete(&OvertimeEntry{})`. -/
def deleteEntriesOfUser (entries : List OvertimeEntry) (userId : Nat) :
    List OvertimeEntry :=
  entries.filter (fun e => !(e.userId == userId))

/-- `db.Delete(&User{}, id)`: the soft-deleted row no longer appears in any
default query, modelled as removal from the table. -/
def deleteUserById (users : List User) (id : Nat) : List User :=
  users.filter (fun u => !(u.id == id))

/-- The fields of the registration form submission. -/
structure RegisterForm where
  code : String
  username : String
  password : String
  confirmPassword : String
deriving DecidableEq, Repr

/-- `AuthHandler.Register` from the auth handlers.  `now` is the clock
reading used by the invite validity check; `bcryptHash` is the outcome of
`bcrypt.GenerateFromPassword` (`some hash` on success); `createOk` and
`signOk` are the outcomes of the repository `Create` and of token signing.
The ParseForm step, whose failure leaves the state untouched, is elided.
Yields the response and the resulting repository state. -/
def Register (db : DB) (form : RegisterForm) (now : Int)
    (bcryptHash : Option String) (createOk signOk : Bool) : Response × DB :=
  match findInviteByCode db.invites form.code with
  | none => (Response.httpError "Invalid invite link" 400, db)
  | some invite =>
    if !(invite.IsValid now) then
      (Response.httpError "Invite link has expired or already been used" 400, db)
    else if form.username.length < 3 then
      (Response.redirect ("/register?code=" ++ form.code ++
        "&error=Username+must+be+at+least+3+characters"), db)
    else if form.password ≠ form.confirmPassword then
      (Response.redirect ("/register?code=" ++ form.code ++
        "&error=Passwords+do+not+match"), db)
    else if form.password.length < 5 then
      (Response.redirect ("/register?code=" ++ form.code ++
        "&error=Password+must+be+at+least+5+characters"), db)
    else if (findUserByUsername db.users form.username).isSome then
      (Response.redirect ("/register?code=" ++ form.code ++
        "&error=Username+already+exists"), db)
    else
      match bcryptHash with
      | none =>
        (Response.redirect ("/register?code=" ++ form.code ++
          "&error=Failed+to+create+account"), db)
      | some hash =>
        let newUser : User :=
          { id := 0, username := form.username, fullName := ""
            passwordHash := hash, role := invite.role
            mustChangePassword := false }
        if !createOk then
          (Response.redirect ("/register?code=" ++ form.code ++
            "&error=Failed+to+create+account"), db)
        else
          let created := gormCreateUser db.users newUser
          let db1 : DB := { db with users := created.1 }
          let db2 : DB :=
            { db1 with users := updateUserMustChangePassword db1.users created.2 false }
          let invite2 : Invite := { invite with used := true }
          let db3 : DB := { db2 with invites := saveInvite db2.invites invite2 }
          if !signOk then (Response.redirect "/login", db3)
          else (Response.redirect "/dashboard", db3)

/-- `AuthHandler.DeleteUser` from the auth handlers.  `parseFormOk` is the
outcome of `ParseForm`; `parsedId` is the outcome of `strconv.ParseUint` on
the submitted `id` field; `deleteEntriesOk` and `deleteUserOk` are the
outcomes of the two repository deletes (a failed delete leaves its table
untouched). -/
def DeleteUser (db : DB) (actor : User) (parseFormOk : Bool)
    (parsedId : Option Nat) (deleteEntriesOk deleteUserOk : Bool) :
    Response × DB :=
  if !actor.IsAdmin then (Response.httpError "Forbidden" 403, db)
  else if !parseFormOk then
    (Response.redirect "/users?error=Invalid+form+data", db)
  else
    match parsedId with
    | none => (Response.redirect "/users?error=Invalid+user+ID", db)
    | some id =>
      if id = actor.id then
        (Response.redirect "/users?error=Cannot+delete+your+own+account", db)
      else if !deleteEntriesOk then
        (Response.redirect "/users?error=Failed+to+delete+user+entries", db)
      else
        let db1 : DB := { db with entries := deleteEntriesOfUser db.entries id }
        if !deleteUserOk then
          (Response.redirect "/users?error=Failed+to+delete+user", db1)
        else
          let db2 : DB := { db1 with users := deleteUserById db1.users id }
          (Response.redirect "/users?success=User+deleted+successfully", db2)

/-! ## Sample values for concrete evaluations -/

/-- A sample employee. -/
def user0 : User :=
  { id := 7, username := "alice", fullName := "Alice A", passwordHash := "h"
    role := Role.employee, mustChangePassword := false }

/-- A sample employee who still must change their password. -/
def user1 : User :=
  { id := 8, username := "bob", fullName := "Bob B", passwordHash := "h2"
    role := Role.employee, mustChangePassword := true }

/-- A sample admin. -/
def adminUser : User :=
  { id := 1, username := "admin", fullName := "", passwordHash := "ha"
    role := Role.admin, mustChangePassword := false }

/-- Sample token claims matching `user0`. -/
def claims0 : JWTClaims :=
  { userId := 7, username := "alice", role := Role.employee
    expiresAt := 10, issuedAt := 0 }

/-- A string-level validator accepting exactly the token string `"tok"`. -/
def validate0 : String → Option JWTClaims :=
  fun s => if s = "tok" then some claims0 else none

/-- A business handler used as the wrapped endpoint in evaluations. -/
def handler0 : User → Request → Response := fun _ _ => Response.page "ok"

/-- A request carrying no cookie and no Authorization header. -/
def reqNoToken : Request :=
  { cookieToken := none, authHeader := "", path := "/users" }

/-- A request authenticated through the `token` cookie. -/
def reqCookieTok : Request :=
  { cookieToken := some "tok", authHeader := "", path := "/users" }

/-- Sample token claims matching `user1`. -/
def claims1 : JWTClaims :=
  { userId := 8, username := "bob", role := Role.employee
    expiresAt := 10, issuedAt := 0 }

/-- A string-level validator accepting exactly the token string `"tok8"`. -/
def validate1 : String → Option JWTClaims :=
  fun s => if s = "tok8" then some claims1 else none

/-- A request by `user1` to the Admin-only `/users` route, authenticated
through the `token` cookie. -/
def reqCookieTok8 : Request :=
  { cookieToken := some "tok8", authHeader := "", path := "/users" }

/-- A request that carries a `token` cookie with the empty string as value
together with a Bearer header. -/
def reqEmptyCookieBearer : Request :=
  { cookieToken := some "", authHeader := "Bearer abc", path := "/" }

/-- A sample unused, unexpired invite. -/
def invite0 : Invite :=
  { id := 1, code := "deadbeef", fullName := "Carol C", role := Role.employee
    used := false, createdBy := 1, expiresAt := 1000000000
    teamId := none, projectId := none }

/-- A sample repository state: one admin, one open invite, one entry. -/
def db0 : DB :=
  { users := [adminUser, user0]
    invites := [invite0]
    entries := [{ id := 1, userId := 7, description := "release work" }] }

/-- A registration submission redeeming `invite0`. -/
def form0 : RegisterForm :=
  { code := "deadbeef", username := "carol"
    password := "12345", confirmPassword := "12345" }

/-! ## Helper lemmas -/

/-- After `Save`ing the consumed copy of the invite that a lookup by code
found, a fresh lookup by the same code yields the consumed copy. -/
lemma findInviteByCode_saveInvite_eq (code : String) (invite i2 : Invite)
    (hid : i2.id = invite.id) (hcode : i2.code = invite.code) :
    ∀ invites : List Invite, findInviteByCode invites code = some invite →
      findInviteByCode (saveInvite invites i2) code = some i2 := by
  intro invites
  induction invites with
  | nil =>
    intro hfind
    simp [findInviteByCode] at hfind
  | cons a rest ih =>
    intro hfind
    have hfind' : List.find? (fun i => i.code == code) (a :: rest) = some invite := hfind
    have hpred : (invite.code == code) = true :=
      @List.find?_some _ (fun i => i.code == code) invite (a :: rest) hfind'
    have hcode2 : (i2.code == code) = true := by rw [hcode]; exact hpred
    show List.find? (fun i => i.code == code)
        ((if a.id = i2.id then i2 else a) ::
          List.map (fun j => if j.id = i2.id then i2 else j) rest) = some i2
    by_cases hida : a.id = i2.id
    · rw [if_pos hida]
      exact @List.find?_cons_of_pos _ (fun i => i.code == code) i2
        (List.map (fun j => if j.id = i2.id then i2 else j) rest) hcode2
    · rw [if_neg hida]
      by_cases hca : (a.code == code) = true
      · exfalso
        rw [@List.find?_cons_of_pos _ (fun i => i.code == code) a rest hca] at hfind'
        injection hfind' with h1
        exact hida (by rw [h1, ← hid])
      · rw [@List.find?_cons_of_neg _ (fun i => i.code == code) a
          (List.map (fun j => if j.id = i2.id then i2 else j) rest) hca]
        have hrest : findInviteByCode rest code = some invite := by
          show List.find? (fun i => i.code == code) rest = some invite
          rw [← @List.find?_cons_of_neg _ (fun i => i.code == code) a rest hca]
          exact hfind'
        exact ih hrest

/-- Looking up a username that no existing row carries, after appending a
row that carries it and then updating the `must_change_password` column of
the row with the appended id, finds the appended row with the column set. -/
lemma findUserByUsername_update_append (uname : String) (id : Nat) (v : Bool)
    (row : User) (hrowname : row.username = uname) (hrowid : row.id = id) :
    ∀ users : List User, findUserByUsername users uname = none →
      findUserByUsername (updateUserMustChangePassword (users ++ [row]) id v) uname =
        some { row with mustChangePassword := v } := by
  intro users
  induction users with
  | nil =>
    intro _
    show List.find? (fun u => u.username == uname)
        ((if row.id = id then { row with mustChangePassword := v } else row) :: []) =
      some { row with mustChangePassword := v }
    rw [if_pos hrowid]
    exact @List.find?_cons_of_pos _ (fun u => u.username == uname)
      { row with mustChangePassword := v } [] (by simp [hrowname])
  | cons a rest ih =>
    intro hnone
    have hnone' : List.find? (fun u => u.username == uname) (a :: rest) = none := hnone
    have hfail : ¬((a.username == uname) = true) := by
      intro hp
      rw [@List.find?_cons_of_pos _ (fun u => u.username == uname) a rest hp] at hnone'
      exact Option.noConfusion hnone'
    have hrest : findUserByUsername rest uname = none := by
      show List.find? (fun u => u.username == uname) rest = none
      rw [← @List.find?_cons_of_neg _ (fun u => u.username == uname) a rest hfail]
      exact hnone'
    show List.find? (fun u => u.username == uname)
        ((if a.id = id then { a with mustChangePassword := v } else a) ::
          List.map (fun u => if u.id = id then { u with mustChangePassword := v } else u)
            (rest ++ [row])) =
      some { row with mustChangePassword := v }
    have hhead : ¬(((if a.id = id then { a with mustChangePassword := v } else a).username
        == uname) = true) := by
      by_cases hai : a.id = id
      · rw [if_pos hai]; exact hfail
      · rw [if_neg hai]; exact hfail
    rw [@List.find?_cons_of_neg _ (fun u => u.username == uname)
      (if a.id = id then { a with mustChangePassword := v } else a)
      (List.map (fun u => if u.id = id then { u with mustChangePassword := v } else u)
        (rest ++ [row])) hhead]
    exact ih hrest

/-- The repository state after a fully successful registration: the new
user row is appended (with the column default applied on `Create`) and its
`must_change_password` column is then overwritten with `false`; the invite
row is saved with `Used` set. -/
lemma register_success_state (db : DB) (form : RegisterForm) (now : Int)
    (invite : Invite) (hash : String) (signOk : Bool)
    (hfind : findInviteByCode db.invites form.code = some invite)
    (hvalid : invite.IsValid now = true)
    (hlen : ¬ form.username.length < 3)
    (hpw : form.password = form.confirmPassword)
    (hplen : ¬ form.password.length < 5)
    (hfresh : findUserByUsername db.users form.username = none) :
    (Register db form now (some hash) true signOk).2 =
      { users := updateUserMustChangePassword
          (db.users ++ [{ id := nextUserId db.users, username := form.username
                          fullName := "", passwordHash := hash, role := invite.role
                          mustChangePassword := gormDefaultMustChangePassword }])
          (nextUserId db.users) false
        invites := saveInvite db.invites { invite with used := true }
        entries := db.entries } := by
  have hplen' : ¬ form.confirmPassword.length < 5 := by rwa [hpw] at hplen
  simp only [Register, hfind, hvalid, Bool.not_true, if_neg hlen, hpw,
    if_neg hplen', hfresh, Option.isSome_none, gormCreateUser]
  cases signOk <;> simp

/-- Whenever the repository `Create` of the new account fails, `Register`
returns without touching the repository state at all. -/
lemma register_create_fails_db_unchanged (db : DB) (form : RegisterForm)
    (now : Int) (bcryptHash : Option String) (signOk : Bool) :
    (Register db form now bcryptHash false signOk).2 = db := by
  unfold Register
  repeat' split <;> try rfl

/-! ## Claims C2 and C3 -/

/-- Claim C2: `Invite.IsValid` is true iff `used = false` and the clock is
strictly before `expires_at`; an invite whose `Used` flag has been set to
`true` is invalid at every time whatsoever; and after a successful
registration consumed an invite, looking its code up in the resulting
repository state yields an invite that is invalid at every future time. -/
theorem invite_isValid_iff_and_consumed_invalid :
    (∀ (i : Invite) (now : Int),
      i.IsValid now = true ↔ (i.used = false ∧ now < i.expiresAt)) ∧
    (∀ (i : Invite) (t : Int), ({ i with used := true } : Invite).IsValid t = false) ∧
    (∀ (db : DB) (form : RegisterForm) (now : Int) (invite : Invite)
        (hash : String) (signOk : Bool) (j : Invite),
      findInviteByCode db.invites form.code = some invite →
      invite.IsValid now = true →
      ¬ form.username.length < 3 →
      form.password = form.confirmPassword →
      ¬ form.password.length < 5 →
      findUserByUsername db.users form.username = none →
      findInviteByCode (Register db form now (some hash) true signOk).2.invites
          form.code = some j →
      ∀ t : Int, j.IsValid t = false) := by
  refine ⟨?_, ?_, ?_⟩
  · intro i now
    simp [Invite.IsValid]
  · intro i t
    simp [Invite.IsValid]
  · intro db form now invite hash signOk j hfind hvalid hlen hpw hplen hfresh hj t
    rw [register_success_state db form now invite hash signOk hfind hvalid hlen hpw
      hplen hfresh] at hj
    have := findInviteByCode_saveInvite_eq form.code invite
      { invite with used := true } rfl rfl db.invites hfind
    rw [this] at hj
    injection hj with h1
    rw [← h1]
    simp [Invite.IsValid]

/-- Witness for C2's consumption clause at a concrete registration: after
`form0` successfully redeems `invite0` against `db0`, the invite found under
that code is invalid at the later time 5. -/
theorem invite_consumed_invalid_witness :
    ({ invite0 with used := true } : Invite).IsValid 5 = false :=
  invite_isValid_iff_and_consumed_invalid.2.2 db0 form0 0 invite0 "bh" true
    { invite0 with used := true } (by decide) (by decide) (by decide) rfl
    (by decide) (by decide) (by decide) 5

/-- Claim C3: `CanManageOvertimeFor actor ownerId` is true exactly when the
actor is an Admin (any ownerId) or the actor's id equals ownerId (any role),
and false in all other cases. -/
theorem canManageOvertimeFor_iff (u : User) (ownerId : Nat) :
    u.CanManageOvertimeFor ownerId = true ↔ (u.role = Role.admin ∨ u.id = ownerId) := by
  simp only [User.CanManageOvertimeFor, User.IsAdmin]
  by_cases h : u.role = Role.admin <;> simp [h]

/-! ## Claims C1 and C6 -/

/-- Claim C1: verifying a token produced by `GenerateToken` with the same
process-wide secret succeeds while the check happens at a time strictly
before the token's `exp` claim, and the returned claims carry the user's
id, username and role. -/
theorem validateToken_generateToken (secret : String) (user : User)
    (expiration t1 t2 now : Int)
    (h : now < (GenerateToken secret user expiration t1 t2).claims.expiresAt) :
    ∃ c, ValidateToken secret now (GenerateToken secret user expiration t1 t2) = some c ∧
      c.userId = user.id ∧ c.username = user.username ∧ c.role = user.role := by
  refine ⟨(GenerateToken secret user expiration t1 t2).claims, ?_, rfl, rfl, rfl⟩
  have hsig : (GenerateToken secret user expiration t1 t2).sig =
      ((GenerateToken secret user expiration t1 t2).claims, secret) := rfl
  simp only [ValidateToken]
  rw [if_pos hsig, if_pos h]

/-- Witness for C1 at a concrete issuance: secret `"s"`, the 24-hour
duration, both clock readings at 0, checked at time 0. -/
theorem validateToken_generateToken_witness :
    0 < (GenerateToken "s" user0 jwtExpiration 0 0).claims.expiresAt ∧
    ∃ c, ValidateToken "s" 0 (GenerateToken "s" user0 jwtExpiration 0 0) = some c ∧
      c.userId = user0.id ∧ c.username = user0.username ∧ c.role = user0.role :=
  ⟨by decide, validateToken_generateToken "s" user0 jwtExpiration 0 0 0 (by decide)⟩

/-- Counterexample to C6 as stated: `GenerateToken` reads the clock once for
`exp` and again, separately, for `iat`; when one second elapses between the
two readings (`t1 = 0`, `t2 = 10^9`), the `exp` claim is the first reading
plus 24h, which is one second short of `iat + 24h`. -/
theorem generateToken_exp_ne_iat_add_duration :
    ¬ ((GenerateToken "s" user0 jwtExpiration 0 1000000000).claims.expiresAt =
        (GenerateToken "s" user0 jwtExpiration 0 1000000000).claims.issuedAt +
          jwtExpiration) := by
  decide

/-- Claim C6 amended: the `exp` claim always equals the first clock reading
plus the configured 24-hour duration, truncated to a whole second; whenever
the two `time.Now()` readings inside `GenerateToken` coincide, `exp` equals
`iat` plus the 24-hour duration exactly. -/
theorem generateToken_exp_eq_iat_add_duration_same_instant
    (secret : String) (user : User) (t : Int) :
    (GenerateToken secret user jwtExpiration t t).claims.expiresAt =
      (GenerateToken secret user jwtExpiration t t).claims.issuedAt + jwtExpiration := by
  have h2 : t + jwtExpiration = t + 1000000000 * 86400 := by
    norm_num [jwtExpiration]
  have h : (t + jwtExpiration) % 1000000000 = t % 1000000000 := by
    rw [h2, Int.add_mul_emod_self_left]
  simp only [GenerateToken, numericDate]
  rw [h]
  ring

/-! ## Claims C4, C5 and C8 -/

/-- Counterexample to C4 as stated: `user1` is authenticated — its token
validates and the repository resolves it — and its Employee role is outside
the Admin-only allow-list, yet the role-gated route answers with a redirect
to `/change-password`, not with 403 Forbidden: `main.go` interposes
`RequirePasswordChange` between `AuthMiddleware` and `RequireRole`, and
`user1` still must change their password. -/
theorem roleGatedRoute_mustChange_redirected_not_forbidden :
    validate1 (extractToken reqCookieTok8) = some claims1 ∧
    findUserById [user1] claims1.userId = some user1 ∧
    [Role.admin].contains user1.role = false ∧
    roleGatedRoute validate1 [user1] [Role.admin] handler0 reqCookieTok8 =
      Response.redirect "/change-password" ∧
    roleGatedRoute validate1 [user1] [Role.admin] handler0 reqCookieTok8 ≠
      Response.httpError "Forbidden" 403 :=
  ⟨by decide, by decide, by decide, by decide, by decide⟩

/-- Claim C4 amended: on a role-gated route, a request with no token at all
is redirected to the login page; an authenticated request whose resolved
identity passes the interposed password-compliance gate
(`must_change_password` is false, or the request is for the password-change
page itself) but whose role is not in the route's allow-list receives the
hard 403 Forbidden error response, not a redirect.  A must-change-password
identity on any other path is redirected to `/change-password` by the
password gate before the role gate runs. -/
theorem roleGatedRoute_noToken_redirects_compliant_wrongRole_forbidden :
    (∀ (validate : String → Option JWTClaims) (users : List User)
        (roles : List Role) (handler : User → Request → Response) (r : Request),
      r.cookieToken = none → r.authHeader = "" →
      roleGatedRoute validate users roles handler r = Response.redirect "/login") ∧
    (∀ (validate : String → Option JWTClaims) (users : List User)
        (roles : List Role) (handler : User → Request → Response) (r : Request)
        (claims : JWTClaims) (user : User),
      extractToken r ≠ "" →
      validate (extractToken r) = some claims →
      findUserById users claims.userId = some user →
      (user.mustChangePassword = false ∨ r.path = "/change-password") →
      roles.contains user.role = false →
      roleGatedRoute validate users roles handler r =
        Response.httpError "Forbidden" 403) := by
  constructor
  · intro validate users roles handler r hc hh
    simp [roleGatedRoute, AuthMiddleware, extractToken, hc, hh]
  · intro validate users roles handler r claims user hne hv hf hcompliant hrole
    have hrole' : ¬ (roles.contains user.role = true) := by
      rw [hrole]
      decide
    have hpwc : RequirePasswordChange
        (fun req2 => RequireRole roles handler (some user) req2) (some user) r =
        RequireRole roles handler (some user) r := by
      rcases hcompliant with hmc | hpath
      · simp [RequirePasswordChange, hmc]
      · simp [RequirePasswordChange, hpath]
    simp only [roleGatedRoute, AuthMiddleware, if_neg hne, hv, hf]
    rw [hpwc]
    simp only [RequireRole, if_neg hrole']

/-- Witness for the amended C4: against an Admin-only allow-list, the
tokenless request is redirected to login, and the password-compliant
Employee `user0` receives 403 Forbidden. -/
theorem roleGatedRoute_noToken_redirects_compliant_wrongRole_forbidden_witness :
    roleGatedRoute validate0 [user0] [Role.admin] handler0 reqNoToken =
      Response.redirect "/login" ∧
    roleGatedRoute validate0 [user0] [Role.admin] handler0 reqCookieTok =
      Response.httpError "Forbidden" 403 :=
  ⟨roleGatedRoute_noToken_redirects_compliant_wrongRole_forbidden.1 validate0
      [user0] [Role.admin] handler0 reqNoToken rfl rfl,
   roleGatedRoute_noToken_redirects_compliant_wrongRole_forbidden.2 validate0
      [user0] [Role.admin] handler0 reqCookieTok claims0 user0 (by decide)
      (by decide) (by decide) (Or.inl rfl) (by decide)⟩

/-- Claim C5: an authenticated identity with `must_change_password` set is
redirected to `/change-password` from any other path, and is passed through
to the handler on the password-change page itself. -/
theorem requirePasswordChange_gate (next : Request → Response) (u : User)
    (r : Request) (h : u.mustChangePassword = true) :
    (r.path ≠ "/change-password" →
      RequirePasswordChange next (some u) r = Response.redirect "/change-password") ∧
    (r.path = "/change-password" →
      RequirePasswordChange next (some u) r = next r) := by
  constructor <;> intro hp <;> simp [RequirePasswordChange, h, hp]

/-- Witness for C5: `user1` requesting `/dashboard` is redirected to
`/change-password`; the same user requesting `/change-password` reaches the
handler. -/
theorem requirePasswordChange_gate_witness :
    RequirePasswordChange (fun _ => Response.page "dash") (some user1)
        { cookieToken := some "tok", authHeader := "", path := "/dashboard" } =
      Response.redirect "/change-password" ∧
    RequirePasswordChange (fun _ => Response.page "cp") (some user1)
        { cookieToken := some "tok", authHeader := "", path := "/change-password" } =
      Response.page "cp" :=
  ⟨(requirePasswordChange_gate (fun _ => Response.page "dash") user1
      { cookieToken := some "tok", authHeader := "", path := "/dashboard" } rfl).1
      (by decide),
   (requirePasswordChange_gate (fun _ => Response.page "cp") user1
      { cookieToken := some "tok", authHeader := "", path := "/change-password" } rfl).2
      rfl⟩

/-- Counterexample to C8 as stated: a request carrying both a `token` cookie
(whose value is the empty string) and an `Authorization: Bearer abc` header
has `"abc"` — the header's token, not the cookie's value — taken for
verification, because `AuthMiddleware` falls back to the header whenever the
cookie's value is the empty string, not only when the cookie is absent. -/
theorem extractToken_emptyCookie_bearer_wins :
    reqEmptyCookieBearer.cookieToken = some "" ∧
    reqEmptyCookieBearer.authHeader = "Bearer abc" ∧
    extractToken reqEmptyCookieBearer = "abc" ∧ ("abc" : String) ≠ "" := by
  refine ⟨rfl, rfl, by decide, by decide⟩

/-- Claim C8 amended: the cookie's value is taken for verification whenever
a `token` cookie is present with a nonempty value, even if a Bearer header
is also present; when the cookie is absent or its value is the empty
string, the request is treated exactly as if no cookie were present and the
Bearer header is consulted. -/
theorem extractToken_cookie_precedence (r : Request) (v : String) :
    (r.cookieToken = some v → v ≠ "" → extractToken r = v) ∧
    (r.cookieToken = some "" →
      extractToken r = extractToken { r with cookieToken := none }) := by
  constructor
  · intro hc hv
    simp [extractToken, hc, hv]
  · intro hc
    simp [extractToken, hc]

/-- Witness for the amended C8: a nonempty cookie value `"c"` wins over a
Bearer header, and the empty-valued cookie request behaves like its
cookieless counterpart. -/
theorem extractToken_cookie_precedence_witness :
    extractToken { cookieToken := some "c", authHeader := "Bearer abc", path := "/" } = "c" ∧
    extractToken reqEmptyCookieBearer =
      extractToken { reqEmptyCookieBearer with cookieToken := none } :=
  ⟨(extractToken_cookie_precedence
      { cookieToken := some "c", authHeader := "Bearer abc", path := "/" } "c").1
      rfl (by decide),
   (extractToken_cookie_precedence reqEmptyCookieBearer "").2 rfl⟩

/-! ## Claims C7, C9 and C10 -/

/-- Claim C7: when a registration submission passes invite validation but
the repository create of the new account fails, the whole repository state
— the invite record included — is exactly as before, and the invite's
`Used` flag is still false. -/
theorem register_create_fails_invite_unconsumed (db : DB) (form : RegisterForm)
    (now : Int) (invite : Invite) (hash : String) (signOk : Bool)
    (hfind : findInviteByCode db.invites form.code = some invite)
    (hvalid : invite.IsValid now = true) :
    (Register db form now (some hash) false signOk).2 = db ∧ invite.used = false := by
  refine ⟨register_create_fails_db_unchanged db form now (some hash) signOk, ?_⟩
  simp only [Invite.IsValid, Bool.and_eq_true, Bool.not_eq_true'] at hvalid
  exact hvalid.1

/-- Witness for C7: redeeming `invite0` with `form0` against `db0` while the
account create fails leaves `db0` untouched. -/
theorem register_create_fails_invite_unconsumed_witness :
    (Register db0 form0 0 (some "bh") false true).2 = db0 ∧ invite0.used = false :=
  register_create_fails_invite_unconsumed db0 form0 0 invite0 "bh" true
    (by decide) (by decide)

/-- Claim C9: when the id submitted to the admin `DeleteUser` operation
equals the acting admin's own id, the handler terminates with the
error redirect and the repository state — user rows and overtime entries —
is exactly as before; an admin can never delete their own account here. -/
theorem deleteUser_self_rejected (db : DB) (actor : User)
    (deleteEntriesOk deleteUserOk : Bool) (parsedId : Option Nat)
    (hadmin : actor.IsAdmin = true)
    (hself : parsedId = some actor.id) :
    DeleteUser db actor true parsedId deleteEntriesOk deleteUserOk =
      (Response.redirect "/users?error=Cannot+delete+your+own+account", db) := by
  simp [DeleteUser, hadmin, hself]

/-- Witness for C9: `adminUser` (id 1) submitting id 1 is rejected with the
error redirect and `db0` is unchanged. -/
theorem deleteUser_self_rejected_witness :
    DeleteUser db0 adminUser true (some 1) true true =
      (Response.redirect "/users?error=Cannot+delete+your+own+account", db0) :=
  deleteUser_self_rejected db0 adminUser true true (some 1) (by decide) rfl

/-- Claim C10: although the data model declares a column default of `true`
for `must_change_password` (which the repository create applies), every
account created by redeeming an invite ends up persisted with
`must_change_password = false`, because `Register` overwrites the column
right after the create. -/
theorem register_invited_user_must_change_password_false (db : DB)
    (form : RegisterForm) (now : Int) (invite : Invite) (hash : String)
    (signOk : Bool)
    (hfind : findInviteByCode db.invites form.code = some invite)
    (hvalid : invite.IsValid now = true)
    (hlen : ¬ form.username.length < 3)
    (hpw : form.password = form.confirmPassword)
    (hplen : ¬ form.password.length < 5)
    (hfresh : findUserByUsername db.users form.username = none) :
    gormDefaultMustChangePassword = true ∧
    ∃ u, findUserByUsername (Register db form now (some hash) true signOk).2.users
          form.username = some u ∧
        u.mustChangePassword = false ∧ u.role = invite.role := by
  refine ⟨rfl, ?_⟩
  rw [register_success_state db form now invite hash signOk hfind hvalid hlen hpw
    hplen hfresh]
  refine ⟨{ id := nextUserId db.users, username := form.username, fullName := ""
            passwordHash := hash, role := invite.role, mustChangePassword := false },
    ?_, rfl, rfl⟩
  exact findUserByUsername_update_append form.username (nextUserId db.users) false
    { id := nextUserId db.users, username := form.username, fullName := ""
      passwordHash := hash, role := invite.role
      mustChangePassword := gormDefaultMustChangePassword } rfl rfl db.users hfresh

/-- Witness for C10: redeeming `invite0` with `form0` against `db0`
succeeds, and the stored `carol` account has `must_change_password` false. -/
theorem register_invited_user_must_change_password_false_witness :
    gormDefaultMustChangePassword = true ∧
    ∃ u, findUserByUsername (Register db0 form0 0 (some "bh") true true).2.users
          form0.username = some u ∧
        u.mustChangePassword = false ∧ u.role = invite0.role :=
  register_invited_user_must_change_password_false db0 form0 0 invite0 "bh" true
    (by decide) (by decide) (by decide) rfl (by decide) (by decide)
